import Mathlib

/-!
Shallow embedding of the CC override engine of the RustySynth MIDI player
(`src/main.rs`): the per-channel CC state store (`CcStateManager`), the
configuration parser in `main`, and the Override Injector
(`send_cc_messages_from_state`), together with theorems settling the spec's
claims about them.

Rust `HashMap<i32, ChannelCcState>` is modelled as an association list with
at-most-one entry per key (the operations below preserve this); since the
only key-set observation (`get_active_channels`) sorts the keys, iteration
order of the hash map is irrelevant. Rust `u8` values are modelled as `Nat`
with explicit bounds in the parsers; `i32` channels are modelled as `Int`.
-/

/-- CC state per channel: seven optional controller values
(`ChannelCcState` in the source, `#[derive(Default)]` = all `None`). -/
structure ChannelCcState where
  volume : Option Nat
  pan : Option Nat
  reverb : Option Nat
  chorus : Option Nat
  modulation : Option Nat
  expression : Option Nat
  sustain : Option Nat
deriving DecidableEq, Repr

def ChannelCcState.default : ChannelCcState :=
  ⟨none, none, none, none, none, none, none⟩

/-- The seven recognized parameter names, in the order of the source's
`valid_params` array. -/
def valid_params : List String :=
  ["volume", "pan", "reverb", "chorus", "modulation", "expression", "sustain"]

/-- The string-keyed field update shared by `set_channel_cc` and
`set_global_cc` (both Rust functions contain the identical seven-arm
`match cc_type` that writes `Some(value)` into the named field and does
nothing for any other string). -/
def setField (st : ChannelCcState) (cc_type : String) (value : Nat) : ChannelCcState :=
  if cc_type = "volume" then { st with volume := some value }
  else if cc_type = "pan" then { st with pan := some value }
  else if cc_type = "reverb" then { st with reverb := some value }
  else if cc_type = "chorus" then { st with chorus := some value }
  else if cc_type = "modulation" then { st with modulation := some value }
  else if cc_type = "expression" then { st with expression := some value }
  else if cc_type = "sustain" then { st with sustain := some value }
  else st

/-- The string-keyed field read shared by both arms of `get_cc_value`
(each arm is the identical seven-arm `match cc_type` returning the named
field, `None` for any other string). -/
def fieldGet (st : ChannelCcState) (cc_type : String) : Option Nat :=
  if cc_type = "volume" then st.volume
  else if cc_type = "pan" then st.pan
  else if cc_type = "reverb" then st.reverb
  else if cc_type = "chorus" then st.chorus
  else if cc_type = "modulation" then st.modulation
  else if cc_type = "expression" then st.expression
  else if cc_type = "sustain" then st.sustain
  else none

/-- The CC state store: `channels: HashMap<i32, ChannelCcState>` modelled as
an association list, plus the `global_defaults` record. -/
structure CcStateManager where
  channels : List (Int × ChannelCcState)
  global_defaults : ChannelCcState
deriving DecidableEq, Repr

def CcStateManager.new : CcStateManager :=
  { channels := [], global_defaults := ChannelCcState.default }

/-- `HashMap::get`: the value stored under key `c`, if any. -/
def lookupChannel : List (Int × ChannelCcState) → Int → Option ChannelCcState
  | [], _ => none
  | (k, st) :: rest, c => if k = c then some st else lookupChannel rest c

/-- `self.channels.entry(channel).or_insert_with(ChannelCcState::default)`
followed by the field write: updates the entry in place if the key exists,
otherwise inserts a fresh default entry (note: the insertion happens even
when `cc_type` is not recognized, because `or_insert_with` runs before the
`match`). -/
def entryUpdate : List (Int × ChannelCcState) → Int → String → Nat →
    List (Int × ChannelCcState)
  | [], c, t, v => [(c, setField ChannelCcState.default t v)]
  | (k, st) :: rest, c, t, v =>
      if k = c then (k, setField st t v) :: rest
      else (k, st) :: entryUpdate rest c t v

/-- `CcStateManager::set_channel_cc`. -/
def set_channel_cc (mgr : CcStateManager) (channel : Int) (cc_type : String)
    (value : Nat) : CcStateManager :=
  { mgr with channels := entryUpdate mgr.channels channel cc_type value }

/-- `CcStateManager::set_global_cc`. -/
def set_global_cc (mgr : CcStateManager) (cc_type : String) (value : Nat) :
    CcStateManager :=
  { mgr with global_defaults := setField mgr.global_defaults cc_type value }

/-- `CcStateManager::get_cc_value`: the per-channel field if the channel has
an entry, `or_else` the global-default field. -/
def get_cc_value (mgr : CcStateManager) (channel : Int) (cc_type : String) :
    Option Nat :=
  (match lookupChannel mgr.channels channel with
   | some channel_state => fieldGet channel_state cc_type
   | none => none).orElse
    (fun _ => fieldGet mgr.global_defaults cc_type)

/-- The per-channel component of resolution (the first arm of
`get_cc_value`, before the `or_else`): the channel's own stored value for
`cc_type`, ignoring global defaults. -/
def channelField (mgr : CcStateManager) (channel : Int) (cc_type : String) :
    Option Nat :=
  match lookupChannel mgr.channels channel with
  | some channel_state => fieldGet channel_state cc_type
  | none => none

/-- `CcStateManager::get_active_channels`: the sorted key list of
`channels` when non-empty, otherwise all 16 channels `0..15`. -/
def get_active_channels (mgr : CcStateManager) : List Int :=
  let channels := mgr.channels.map Prod.fst
  if channels.isEmpty then (List.range 16).map Int.ofNat
  else List.insertionSort (· ≤ ·) channels

/-! ## Override Injector (`send_cc_messages_from_state`) -/

-- MIDI CC message constants from the source.
def CC_PAN : Int := 10
def CC_REVERB : Int := 91
def CC_CHORUS : Int := 93
def CC_VOLUME : Int := 7
def CC_MODULATION : Int := 1
def CC_EXPRESSION : Int := 11
def CC_SUSTAIN : Int := 64
def MIDI_CC_COMMAND : Int := 0xB0

/-- One `process_midi_message(channel, command, data1, data2)` call, as
observed by the synthesizer. -/
structure MidiMessage where
  channel : Int
  command : Int
  data1 : Int
  data2 : Int
deriving DecidableEq, Repr

/-- The synthesizer, abstracted to the sequence of raw MIDI messages it has
received (`Synthesizer::process_midi_message` appends one). -/
def process_midi_message (synth : List MidiMessage)
    (channel command data1 data2 : Int) : List MidiMessage :=
  synth ++ [⟨channel, command, data1, data2⟩]

/-- The body of the per-channel loop of `send_cc_messages_from_state`: seven
`if let Some(value) = cc_state.get_cc_value(channel, ...)` blocks, in source
order volume, expression, pan, modulation, reverb, chorus, sustain, each
forwarding one control-change message to the synthesizer. -/
def inject_channel (cc_state : CcStateManager) (channel : Int)
    (synth : List MidiMessage) : List MidiMessage :=
  let synth := match get_cc_value cc_state channel "volume" with
    | some value => process_midi_message synth channel MIDI_CC_COMMAND CC_VOLUME (value : Int)
    | none => synth
  let synth := match get_cc_value cc_state channel "expression" with
    | some value => process_midi_message synth channel MIDI_CC_COMMAND CC_EXPRESSION (value : Int)
    | none => synth
  let synth := match get_cc_value cc_state channel "pan" with
    | some value => process_midi_message synth channel MIDI_CC_COMMAND CC_PAN (value : Int)
    | none => synth
  let synth := match get_cc_value cc_state channel "modulation" with
    | some value => process_midi_message synth channel MIDI_CC_COMMAND CC_MODULATION (value : Int)
    | none => synth
  let synth := match get_cc_value cc_state channel "reverb" with
    | some value => process_midi_message synth channel MIDI_CC_COMMAND CC_REVERB (value : Int)
    | none => synth
  let synth := match get_cc_value cc_state channel "chorus" with
    | some value => process_midi_message synth channel MIDI_CC_COMMAND CC_CHORUS (value : Int)
    | none => synth
  match get_cc_value cc_state channel "sustain" with
    | some value => process_midi_message synth channel MIDI_CC_COMMAND CC_SUSTAIN (value : Int)
    | none => synth

/-- `send_cc_messages_from_state`: for each channel of
`get_active_channels`, in order, run the seven per-type injections against
the synthesizer. -/
def send_cc_messages_from_state (cc_state : CcStateManager)
    (synth : List MidiMessage) : List MidiMessage :=
  (get_active_channels cc_state).foldl
    (fun s channel => inject_channel cc_state channel s) synth

/-- Spec-side: the fixed CC-type priority order of §4.3 of the spec
(volume, expression, pan, modulation, reverb, chorus, sustain). -/
def cc_order : List String :=
  ["volume", "expression", "pan", "modulation", "reverb", "chorus", "sustain"]

/-- Spec-side: the standard MIDI controller number for each CC type. -/
def controller_number (t : String) : Int :=
  if t = "volume" then CC_VOLUME
  else if t = "expression" then CC_EXPRESSION
  else if t = "pan" then CC_PAN
  else if t = "modulation" then CC_MODULATION
  else if t = "reverb" then CC_REVERB
  else if t = "chorus" then CC_CHORUS
  else if t = "sustain" then CC_SUSTAIN
  else 0

/-- Spec-side: the control-change message `(channel, 0xB0,
controller_number, value)` for one resolved `(channel, type)` pair. -/
def cc_message (channel : Int) (t : String) (v : Nat) : MidiMessage :=
  ⟨channel, MIDI_CC_COMMAND, controller_number t, (v : Int)⟩

/-- Spec-side: the messages one channel contributes — one message per CC
type of `cc_order` whose resolution is present, none for unset pairs. -/
def spec_channel_messages (mgr : CcStateManager) (channel : Int) :
    List MidiMessage :=
  cc_order.filterMap
    (fun t => (get_cc_value mgr channel t).map (cc_message channel t))

/-- Spec-side: the full emitted message sequence of one injector
invocation. -/
def spec_emitted (mgr : CcStateManager) : List MidiMessage :=
  (get_active_channels mgr).flatMap (spec_channel_messages mgr)

/-! ## Configuration parsing (`main`) -/

/-- ASCII lowercasing of a directive field (`str::to_lowercase`; the
recognized tokens are all ASCII, where the two agree). Defined on the
character list so that it evaluates by kernel reduction. -/
def toLowerStr (s : String) : String :=
  String.mk (s.data.map Char.toLower)

/-- `str::split(sep)`: splits into the (possibly empty) pieces between
occurrences of `sep`; the empty input yields one empty piece. -/
def splitChar (sep : Char) : List Char → List (List Char)
  | [] => [[]]
  | c :: rest =>
      let r := splitChar sep rest
      if c = sep then [] :: r
      else match r with
           | h :: t => (c :: h) :: t
           | [] => [[c]]

/-- `param_str.split(':').collect::<Vec<&str>>()`. -/
def split_colon (s : String) : List String :=
  (splitChar ':' s.data).map String.mk

/-- Digit-string evaluation: `acc` carries the value of the digits already
consumed; any non-digit character fails. -/
def digitsAux : List Char → Nat → Option Nat
  | [], acc => some acc
  | c :: cs, acc =>
      if c.isDigit then digitsAux cs (acc * 10 + (c.toNat - 48)) else none

/-- Value of a non-empty all-digit character list, `none` otherwise. -/
def digitsToNat? (cs : List Char) : Option Nat :=
  match cs with
  | [] => none
  | _ => digitsAux cs 0

/-- `str::parse::<u8>()`: an optional leading `+`, then one or more digits,
value at most 255 (`u8::MAX`); anything else — including a `-` sign — is a
parse error. -/
def parseU8 (s : String) : Option Nat :=
  let cs := match s.data with
    | '+' :: rest => rest
    | cs => cs
  match digitsToNat? cs with
  | some n => if n ≤ 255 then some n else none
  | none => none

/-- `str::parse::<i32>()`: an optional sign, one or more digits, value
within `i32` bounds. -/
def parseI32 (s : String) : Option Int :=
  match s.data with
  | '+' :: rest =>
      match digitsToNat? rest with
      | some n => if n ≤ 2147483647 then some (n : Int) else none
      | none => none
  | '-' :: rest =>
      match digitsToNat? rest with
      | some n => if n ≤ 2147483648 then some (-(n : Int)) else none
      | none => none
  | cs =>
      match digitsToNat? cs with
      | some n => if n ≤ 2147483647 then some (n : Int) else none
      | none => none

/-- The spec's error taxonomy for one `CHANNEL:PARAM:VALUE` directive; in
the source each case is an `eprintln!` followed by `exit(1)`. -/
inductive DirectiveError where
  | MalformedDirective
  | InvalidChannel
  | UnknownParameter
  | InvalidValue
deriving DecidableEq, Repr

/-- The sustain arm of the directive value parse: `"on"`/`"off"` after
lowercasing map to 127/0; otherwise `parse::<u8>()`, with any parsed value
`>= 64` coerced to 127 and smaller values kept; a failed parse is an
`InvalidValue` error. -/
def parse_sustain_value (value_str : String) : Except DirectiveError Nat :=
  let lower := toLowerStr value_str
  if lower = "on" then .ok 127
  else if lower = "off" then .ok 0
  else match parseU8 value_str with
    | some v => if 64 ≤ v then .ok 127 else .ok v
    | none => .error .InvalidValue

/-- The value field parse of one directive: sustain is special; every other
parameter is `parse::<u8>()` with an explicit `v <= 127` range check (both
the out-of-range and the unparsable case exit with the invalid-value
message). -/
def parse_value (param_type : String) (value_str : String) :
    Except DirectiveError Nat :=
  if param_type = "sustain" then parse_sustain_value value_str
  else match parseU8 value_str with
    | some v => if v ≤ 127 then .ok v else .error .InvalidValue
    | none => .error .InvalidValue

/-- One iteration of the `for param_str in &args.channel_params` loop, up to
the `set_channel_cc` call: split on `:` into exactly three fields, parse the
channel as an `i32` in `[0,16)`, lowercase and validate the parameter name,
then parse the value. -/
def parse_directive (param_str : String) :
    Except DirectiveError (Int × String × Nat) :=
  match split_colon param_str with
  | [f0, f1, f2] =>
      match parseI32 f0 with
      | some ch =>
          if 0 ≤ ch ∧ ch < 16 then
            let param_type := toLowerStr f1
            if param_type ∈ valid_params then
              match parse_value param_type f2 with
              | .ok v => .ok (ch, param_type, v)
              | .error e => .error e
            else .error .UnknownParameter
          else .error .InvalidChannel
      | none => .error .InvalidChannel
  | _ => .error .MalformedDirective

/-- One full loop iteration: a successfully parsed directive performs the
`set_channel_cc` write; a failed one aborts (`exit(1)` in the source,
an `Except.error` here). -/
def apply_directive (mgr : CcStateManager) (s : String) :
    Except DirectiveError CcStateManager :=
  match parse_directive s with
  | .ok (ch, t, v) => .ok (set_channel_cc mgr ch t v)
  | .error e => .error e

/-- The whole `channel_params` loop: directives are applied left to right;
the first failure aborts, and no store is produced. -/
def apply_channel_params (mgr : CcStateManager) :
    List String → Except DirectiveError CcStateManager
  | [] => .ok mgr
  | s :: rest =>
      match apply_directive mgr s with
      | .ok mgr1 => apply_channel_params mgr1 rest
      | .error e => .error e

/-- The configuration inputs of `Args` that feed the CC store (the file
paths are out of scope). The six numeric global options are range-checked
to `[0,127]` by clap before `main` sees them. -/
structure Args where
  pan : Option Nat
  reverb : Option Nat
  chorus : Option Nat
  volume : Option Nat
  modulation : Option Nat
  expression : Option Nat
  sustain : Option String
  channel_params : List String
deriving DecidableEq, Repr

/-- The `match args.sustain.as_deref()` block of `main`: exactly the
literals `"on"`/`"ON"` give 127, `"off"`/`"OFF"` or an absent option give
0, and any other string is a fatal error. -/
def parse_global_sustain (sustain : Option String) :
    Except DirectiveError Nat :=
  match sustain with
  | some s =>
      if s = "on" then .ok 127
      else if s = "ON" then .ok 127
      else if s = "off" then .ok 0
      else if s = "OFF" then .ok 0
      else .error .InvalidValue
  | none => .ok 0

/-- The global-defaults block of `main`: each of the six numeric options is
written via `set_global_cc`, falling back to its built-in default (pan 64,
reverb 0, chorus 0, volume 100, modulation 0, expression 127), then the
sustain option is parsed and written (sustain default off = 0). -/
def apply_globals (args : Args) (mgr0 : CcStateManager) :
    Except DirectiveError CcStateManager :=
  let m1 := match args.pan with
    | some pan => set_global_cc mgr0 "pan" pan
    | none => set_global_cc mgr0 "pan" 64
  let m2 := match args.reverb with
    | some reverb => set_global_cc m1 "reverb" reverb
    | none => set_global_cc m1 "reverb" 0
  let m3 := match args.chorus with
    | some chorus => set_global_cc m2 "chorus" chorus
    | none => set_global_cc m2 "chorus" 0
  let m4 := match args.volume with
    | some volume => set_global_cc m3 "volume" volume
    | none => set_global_cc m3 "volume" 100
  let m5 := match args.modulation with
    | some modulation => set_global_cc m4 "modulation" modulation
    | none => set_global_cc m4 "modulation" 0
  let m6 := match args.expression with
    | some expression => set_global_cc m5 "expression" expression
    | none => set_global_cc m5 "expression" 127
  match parse_global_sustain args.sustain with
  | .ok sustain_value => .ok (set_global_cc m6 "sustain" sustain_value)
  | .error e => .error e

/-- The configuration phase of `main` in order: a fresh store, the global
defaults and options, then the per-channel directives. -/
def run_setup (args : Args) : Except DirectiveError CcStateManager :=
  match apply_globals args CcStateManager.new with
  | .ok mgr => apply_channel_params mgr args.channel_params
  | .error e => .error e

/-! ## Supporting lemmas -/

theorem mem_valid_params {t : String} (ht : t ∈ valid_params) :
    t = "volume" ∨ t = "pan" ∨ t = "reverb" ∨ t = "chorus" ∨
    t = "modulation" ∨ t = "expression" ∨ t = "sustain" := by
  simpa [valid_params] using ht

theorem fieldGet_default (t : String) :
    fieldGet ChannelCcState.default t = none := by
  simp only [fieldGet, ChannelCcState.default]
  split_ifs <;> rfl

theorem fieldGet_setField_same (st : ChannelCcState) (t : String) (v : Nat)
    (ht : t ∈ valid_params) : fieldGet (setField st t v) t = some v := by
  rcases mem_valid_params ht with rfl | rfl | rfl | rfl | rfl | rfl | rfl <;> rfl

theorem fieldGet_setField_other (st : ChannelCcState) (t t' : String)
    (v : Nat) (hne : t' ≠ t) :
    fieldGet (setField st t v) t' = fieldGet st t' := by
  by_cases h1 : t = "volume"
  · subst h1; simp [setField, fieldGet, hne]
  by_cases h2 : t = "pan"
  · subst h2; simp [setField, fieldGet, hne]
  by_cases h3 : t = "reverb"
  · subst h3; simp [setField, fieldGet, hne]
  by_cases h4 : t = "chorus"
  · subst h4; simp [setField, fieldGet, hne]
  by_cases h5 : t = "modulation"
  · subst h5; simp [setField, fieldGet, hne]
  by_cases h6 : t = "expression"
  · subst h6; simp [setField, fieldGet, hne]
  by_cases h7 : t = "sustain"
  · subst h7; simp [setField, fieldGet, hne]
  simp [setField, h1, h2, h3, h4, h5, h6, h7]

theorem setField_unrecognized (st : ChannelCcState) (t : String) (v : Nat)
    (ht : t ∉ valid_params) : setField st t v = st := by
  simp only [valid_params, List.mem_cons, List.not_mem_nil, or_false] at ht
  push_neg at ht
  obtain ⟨h1, h2, h3, h4, h5, h6, h7⟩ := ht
  simp [setField, h1, h2, h3, h4, h5, h6, h7]

theorem get_cc_value_eq (mgr : CcStateManager) (c : Int) (t : String) :
    get_cc_value mgr c t =
      (channelField mgr c t).orElse (fun _ => fieldGet mgr.global_defaults t) :=
  rfl

theorem lookup_entryUpdate (c c' : Int) (t : String) (v : Nat) :
    ∀ l : List (Int × ChannelCcState),
      lookupChannel (entryUpdate l c t v) c' =
        if c' = c then
          some (setField ((lookupChannel l c).getD ChannelCcState.default) t v)
        else lookupChannel l c' := by
  intro l
  induction l with
  | nil =>
      simp only [entryUpdate, lookupChannel]
      by_cases h : c' = c
      · subst h; simp
      · simp [h, Ne.symm h]
  | cons p rest ih =>
      obtain ⟨k, st⟩ := p
      simp only [entryUpdate, lookupChannel]
      by_cases hk : k = c
      · subst hk
        by_cases hc : c' = k
        · subst hc; simp [lookupChannel]
        · simp [lookupChannel, hc, Ne.symm hc]
      · by_cases hc : k = c'
        · subst hc
          simp [lookupChannel, hk, Ne.symm hk]
        · simp [lookupChannel, hk, hc, ih]

theorem channelField_set_channel (mgr : CcStateManager) (c c' : Int)
    (t t' : String) (v : Nat) :
    channelField (set_channel_cc mgr c t v) c' t' =
      if c' = c then
        fieldGet
          (setField ((lookupChannel mgr.channels c).getD ChannelCcState.default) t v) t'
      else channelField mgr c' t' := by
  simp only [channelField, set_channel_cc, lookup_entryUpdate]
  by_cases h : c' = c <;> simp [h]

set_option maxHeartbeats 1000000 in
theorem inject_channel_eq (mgr : CcStateManager) (channel : Int)
    (synth : List MidiMessage) :
    inject_channel mgr channel synth =
      synth ++ spec_channel_messages mgr channel := by
  simp only [inject_channel, spec_channel_messages, cc_order,
    List.filterMap_cons, List.filterMap_nil]
  cases get_cc_value mgr channel "volume" <;>
    cases get_cc_value mgr channel "expression" <;>
    cases get_cc_value mgr channel "pan" <;>
    cases get_cc_value mgr channel "modulation" <;>
    cases get_cc_value mgr channel "reverb" <;>
    cases get_cc_value mgr channel "chorus" <;>
    cases get_cc_value mgr channel "sustain" <;>
    simp [process_midi_message, cc_message, controller_number]

theorem send_foldl_eq (mgr : CcStateManager) :
    ∀ (l : List Int) (synth : List MidiMessage),
      l.foldl (fun s channel => inject_channel mgr channel s) synth =
        synth ++ l.flatMap (spec_channel_messages mgr) := by
  intro l
  induction l with
  | nil => intro synth; simp
  | cons ch rest ih =>
      intro synth
      simp only [List.foldl_cons, List.flatMap_cons]
      rw [inject_channel_eq, ih, List.append_assoc]

theorem send_eq (mgr : CcStateManager) (synth : List MidiMessage) :
    send_cc_messages_from_state mgr synth = synth ++ spec_emitted mgr := by
  simp only [send_cc_messages_from_state, spec_emitted]
  exact send_foldl_eq mgr _ synth

/-! ## Claim theorems -/

/-- C1: resolution for `(channel, cc_type)` is the per-channel value when
that channel's entry has the field set, otherwise the global-default value
for the type (present or absent); in particular, after setting a global
value `g` and a channel value `v` for `(c, t)`, channel `c` resolves to `v`
while every other channel with no own value for `t` resolves to `g`. -/
theorem get_cc_value_resolution (mgr : CcStateManager) (c : Int) (t : String)
    (ht : t ∈ valid_params) :
    (∀ v, channelField mgr c t = some v → get_cc_value mgr c t = some v) ∧
    (channelField mgr c t = none →
      get_cc_value mgr c t = fieldGet mgr.global_defaults t) ∧
    (∀ g v,
      get_cc_value (set_channel_cc (set_global_cc mgr t g) c t v) c t =
        some v) ∧
    (∀ g v c', c' ≠ c → channelField mgr c' t = none →
      get_cc_value (set_channel_cc (set_global_cc mgr t g) c t v) c' t =
        some g) := by
  refine ⟨?_, ?_, ?_, ?_⟩
  · intro v h
    rw [get_cc_value_eq, h]; rfl
  · intro h
    rw [get_cc_value_eq, h]; rfl
  · intro g v
    rw [get_cc_value_eq, channelField_set_channel, if_pos rfl,
      fieldGet_setField_same _ _ _ ht]
    rfl
  · intro g v c' hne h
    rw [get_cc_value_eq, channelField_set_channel, if_neg hne]
    have hcf : channelField (set_global_cc mgr t g) c' t = none := h
    rw [hcf]
    show fieldGet (setField mgr.global_defaults t g) t = some g
    exact fieldGet_setField_same _ _ _ ht

/-- Witness for C1 at a concrete store: global volume 50, channel-2 volume
60; channel 2 resolves to 60 and channel 7 to 50. -/
theorem get_cc_value_resolution_inst :
    get_cc_value (set_channel_cc (set_global_cc CcStateManager.new "volume" 50)
        2 "volume" 60) 2 "volume" = some 60 ∧
    get_cc_value (set_channel_cc (set_global_cc CcStateManager.new "volume" 50)
        2 "volume" 60) 7 "volume" = some 50 :=
  ⟨(get_cc_value_resolution CcStateManager.new 2 "volume" (by decide)).2.2.1 50 60,
   (get_cc_value_resolution CcStateManager.new 2 "volume" (by decide)).2.2.2
      50 60 7 (by decide) rfl⟩

/-- C2: the Override Injector appends, for each channel of
`get_active_channels` in order and for each CC type in the fixed order
`cc_order` (volume, expression, pan, modulation, reverb, chorus, sustain),
exactly one control-change message `(channel, 0xB0, controller_number, value)`
when `get_cc_value` is present, and no message for an unset pair. -/
theorem send_cc_messages_spec (mgr : CcStateManager)
    (synth : List MidiMessage) :
    send_cc_messages_from_state mgr synth =
      synth ++ (get_active_channels mgr).flatMap (fun channel =>
        cc_order.filterMap (fun t =>
          (get_cc_value mgr channel t).map (cc_message channel t))) :=
  send_eq mgr synth

/-- C9: invoking the Override Injector twice in succession on an unchanged
store appends the same message sequence both times (its output is a
function of the store alone: the suffix the second call appends equals
the suffix the first call appended). -/
theorem injector_idempotent (mgr : CcStateManager)
    (synth : List MidiMessage) :
    (send_cc_messages_from_state mgr
        (send_cc_messages_from_state mgr synth)).drop
      (send_cc_messages_from_state mgr synth).length =
    (send_cc_messages_from_state mgr synth).drop synth.length := by
  rw [send_eq mgr (send_cc_messages_from_state mgr synth), List.drop_left,
    send_eq mgr synth, List.drop_left]

/-- C6 counterexample: with an unrecognized `cc_type`, `set_channel_cc` is
not a no-op on the store: on an empty store it inserts an empty entry for
channel 3, changing the key set of `per_channel` and hence the active
channel set. -/
theorem set_channel_cc_unrecognized_not_noop :
    set_channel_cc CcStateManager.new 3 "loudness" 5 ≠ CcStateManager.new ∧
    get_active_channels (set_channel_cc CcStateManager.new 3 "loudness" 5) =
      [3] ∧
    get_active_channels CcStateManager.new =
      [0, 1, 2, 3, 4, 5, 6, 7, 8, 9, 10, 11, 12, 13, 14, 15] :=
  ⟨by decide, rfl, rfl⟩

/-- C6 amended: `set_channel_cc` with an unrecognized `cc_type` changes no
stored value — `global_defaults`, every existing entry, every per-channel
field and every resolved value are unchanged — and returns no error, but it
does insert a fresh all-`None` entry for `channel` when that key is absent
(which can change `get_active_channels`). -/
theorem set_channel_cc_unrecognized (mgr : CcStateManager) (c : Int)
    (t : String) (v : Nat) (ht : t ∉ valid_params) :
    (set_channel_cc mgr c t v).global_defaults = mgr.global_defaults ∧
    (∀ c', lookupChannel (set_channel_cc mgr c t v).channels c' =
      if c' = c then
        some ((lookupChannel mgr.channels c).getD ChannelCcState.default)
      else lookupChannel mgr.channels c') ∧
    (∀ c' t',
      channelField (set_channel_cc mgr c t v) c' t' = channelField mgr c' t') ∧
    (∀ c' t',
      get_cc_value (set_channel_cc mgr c t v) c' t' = get_cc_value mgr c' t') := by
  have key : ∀ c' t',
      channelField (set_channel_cc mgr c t v) c' t' = channelField mgr c' t' := by
    intro c' t'
    rw [channelField_set_channel, setField_unrecognized _ _ _ ht]
    by_cases hc : c' = c
    · subst hc
      cases hl : lookupChannel mgr.channels c' with
      | none => simp [channelField, hl, fieldGet_default]
      | some st => simp [channelField, hl]
    · rw [if_neg hc]
  refine ⟨rfl, ?_, key, ?_⟩
  · intro c'
    simp [set_channel_cc, lookup_entryUpdate, setField_unrecognized _ _ _ ht]
  · intro c' t'
    rw [get_cc_value_eq, get_cc_value_eq, key c' t']
    rfl

/-- Witness for C6's amended theorem at `cc_type = "loudness"`: values and
resolution are untouched even though the entry for channel 3 appears. -/
theorem set_channel_cc_unrecognized_inst :
    get_cc_value (set_channel_cc CcStateManager.new 3 "loudness" 5) 0 "volume" =
      get_cc_value CcStateManager.new 0 "volume" ∧
    (set_channel_cc CcStateManager.new 3 "loudness" 5).global_defaults =
      CcStateManager.new.global_defaults :=
  ⟨(set_channel_cc_unrecognized CcStateManager.new 3 "loudness" 5
      (by decide)).2.2.2 0 "volume",
   (set_channel_cc_unrecognized CcStateManager.new 3 "loudness" 5
      (by decide)).1⟩

/-- C7 counterexample: the global sustain option does not follow the
per-directive sustain value rules: the numeric value "100" (which the
directive parser coerces to 127) and the mixed-case token "On" (which the
directive parser lowercases and accepts) are both fatal errors for the
global option. -/
theorem global_sustain_counterexample :
    parse_sustain_value "100" = .ok 127 ∧
    parse_global_sustain (some "100") = .error DirectiveError.InvalidValue ∧
    parse_sustain_value "On" = .ok 127 ∧
    parse_global_sustain (some "On") = .error DirectiveError.InvalidValue :=
  ⟨rfl, rfl, rfl, rfl⟩

/-- C7 amended: the global sustain scalar option accepts exactly the
literal tokens "on"/"ON" (mapped to 127) and "off"/"OFF" (mapped to 0),
with an absent option defaulting to 0; every other string — numeric values
and other casings included — is a fatal configuration error. -/
theorem parse_global_sustain_spec (s : String) :
    parse_global_sustain none = .ok 0 ∧
    (s = "on" ∨ s = "ON" → parse_global_sustain (some s) = .ok 127) ∧
    (s = "off" ∨ s = "OFF" → parse_global_sustain (some s) = .ok 0) ∧
    (s ≠ "on" → s ≠ "ON" → s ≠ "off" → s ≠ "OFF" →
      parse_global_sustain (some s) = .error DirectiveError.InvalidValue) := by
  refine ⟨rfl, ?_, ?_, ?_⟩
  · rintro (rfl | rfl) <;> rfl
  · rintro (rfl | rfl) <;> rfl
  · intro h1 h2 h3 h4
    simp [parse_global_sustain, h1, h2, h3, h4]

/-- Witness for C7's amended theorem at the concrete inputs "ON" and "42". -/
theorem parse_global_sustain_inst :
    parse_global_sustain (some "ON") = .ok 127 ∧
    parse_global_sustain (some "42") = .error DirectiveError.InvalidValue :=
  ⟨(parse_global_sustain_spec "ON").2.1 (Or.inr rfl),
   (parse_global_sustain_spec "42").2.2.2 (by decide) (by decide) (by decide)
     (by decide)⟩

/-- C10: `set_channel_cc` with a recognized type writes exactly field `t`
of channel `c`'s state; every other field of that state, every other
channel's entry, and `global_defaults` are unchanged; symmetrically,
`set_global_cc` changes only field `t` of `global_defaults` and leaves
`channels` entirely unchanged. -/
theorem set_cc_frame (mgr : CcStateManager) (c : Int) (t : String) (v : Nat)
    (ht : t ∈ valid_params) :
    channelField (set_channel_cc mgr c t v) c t = some v ∧
    (∀ c' t', c' ≠ c →
      channelField (set_channel_cc mgr c t v) c' t' = channelField mgr c' t') ∧
    (∀ t', t' ≠ t →
      channelField (set_channel_cc mgr c t v) c t' = channelField mgr c t') ∧
    (∀ c', c' ≠ c →
      lookupChannel (set_channel_cc mgr c t v).channels c' =
        lookupChannel mgr.channels c') ∧
    (set_channel_cc mgr c t v).global_defaults = mgr.global_defaults ∧
    (set_global_cc mgr t v).channels = mgr.channels ∧
    fieldGet (set_global_cc mgr t v).global_defaults t = some v ∧
    (∀ t', t' ≠ t →
      fieldGet (set_global_cc mgr t v).global_defaults t' =
        fieldGet mgr.global_defaults t') := by
  refine ⟨?_, ?_, ?_, ?_, rfl, rfl, ?_, ?_⟩
  · rw [channelField_set_channel, if_pos rfl, fieldGet_setField_same _ _ _ ht]
  · intro c' t' hne
    rw [channelField_set_channel, if_neg hne]
  · intro t' hne
    rw [channelField_set_channel, if_pos rfl,
      fieldGet_setField_other _ _ _ _ hne]
    cases hl : lookupChannel mgr.channels c with
    | none => simp [channelField, hl, fieldGet_default]
    | some st => simp [channelField, hl]
  · intro c' hne
    simp [set_channel_cc, lookup_entryUpdate, hne]
  · exact fieldGet_setField_same _ _ _ ht
  · intro t' hne
    exact fieldGet_setField_other _ _ _ _ hne

/-- Witness for C10 at a concrete store: writing pan 9 on channel 4 sets
that field and leaves channel 4's volume as it was. -/
theorem set_cc_frame_inst :
    channelField (set_channel_cc CcStateManager.new 4 "pan" 9) 4 "pan" =
      some 9 ∧
    channelField (set_channel_cc CcStateManager.new 4 "pan" 9) 4 "volume" =
      channelField CcStateManager.new 4 "volume" :=
  ⟨(set_cc_frame CcStateManager.new 4 "pan" 9 (by decide)).1,
   (set_cc_frame CcStateManager.new 4 "pan" 9 (by decide)).2.2.1 "volume"
     (by decide)⟩

/-- C3: `get_active_channels` returns exactly the 16 channels 0..15 in
ascending order when `per_channel` is empty, and otherwise an ascending
duplicate-free list whose members are exactly the keys of `per_channel`. -/
theorem get_active_channels_spec (mgr : CcStateManager) :
    (mgr.channels = [] →
      get_active_channels mgr =
        [0, 1, 2, 3, 4, 5, 6, 7, 8, 9, 10, 11, 12, 13, 14, 15]) ∧
    (mgr.channels ≠ [] → (mgr.channels.map Prod.fst).Nodup →
      (get_active_channels mgr).Sorted (· ≤ ·) ∧
      (get_active_channels mgr).Nodup ∧
      (∀ x : Int,
        x ∈ get_active_channels mgr ↔ x ∈ mgr.channels.map Prod.fst)) := by
  constructor
  · intro h
    unfold get_active_channels
    rw [h]
    rfl
  · intro hne hnodup
    have hmap : mgr.channels.map Prod.fst ≠ [] := by simpa using hne
    have hie : (mgr.channels.map Prod.fst).isEmpty = false := by
      cases hmc : mgr.channels.map Prod.fst with
      | nil => exact absurd hmc hmap
      | cons a l => rfl
    simp only [get_active_channels, hie, Bool.false_eq_true, if_false]
    refine ⟨List.sorted_insertionSort _ _, ?_, ?_⟩
    · exact ((List.perm_insertionSort _ _).nodup_iff).mpr hnodup
    · intro x
      exact (List.perm_insertionSort _ _).mem_iff

/-- Witness for C3: the empty store yields 0..15; a store with entries for
channels 9 and 2 yields a sorted list containing 9. -/
theorem get_active_channels_inst :
    get_active_channels CcStateManager.new =
      [0, 1, 2, 3, 4, 5, 6, 7, 8, 9, 10, 11, 12, 13, 14, 15] ∧
    (get_active_channels (set_channel_cc
        (set_channel_cc CcStateManager.new 9 "pan" 1) 2 "volume" 3)).Sorted
      (· ≤ ·) ∧
    (9 ∈ get_active_channels (set_channel_cc
        (set_channel_cc CcStateManager.new 9 "pan" 1) 2 "volume" 3) ↔
      9 ∈ (set_channel_cc (set_channel_cc CcStateManager.new 9 "pan" 1)
        2 "volume" 3).channels.map Prod.fst) :=
  ⟨(get_active_channels_spec CcStateManager.new).1 rfl,
   ((get_active_channels_spec (set_channel_cc
      (set_channel_cc CcStateManager.new 9 "pan" 1) 2 "volume" 3)).2
      (by decide) (by decide)).1,
   ((get_active_channels_spec (set_channel_cc
      (set_channel_cc CcStateManager.new 9 "pan" 1) 2 "volume" 3)).2
      (by decide) (by decide)).2.2 9⟩

/-- C4: the sustain directive value field: the tokens "on"/"off" compared
case-insensitively map to 127/0; otherwise the field is parsed as a `u8`
and any parsed value ≥ 64 is coerced to exactly 127 while values 0–63 pass
through unmodified; non-numeric non-token input fails with `InvalidValue`;
in particular "5:sustain:on" and "5:sustain:100" both store 127 and
"5:sustain:30" stores 30. -/
theorem sustain_value_rules (s : String) (v : Nat) :
    (toLowerStr s = "on" → parse_sustain_value s = .ok 127) ∧
    (toLowerStr s = "off" → parse_sustain_value s = .ok 0) ∧
    (toLowerStr s ≠ "on" → toLowerStr s ≠ "off" → parseU8 s = some v →
      parse_sustain_value s = .ok (if 64 ≤ v then 127 else v)) ∧
    (toLowerStr s ≠ "on" → toLowerStr s ≠ "off" → parseU8 s = none →
      parse_sustain_value s = .error DirectiveError.InvalidValue) ∧
    parse_directive "5:sustain:on" = .ok (5, "sustain", 127) ∧
    parse_directive "5:sustain:100" = .ok (5, "sustain", 127) ∧
    parse_directive "5:sustain:30" = .ok (5, "sustain", 30) := by
  refine ⟨?_, ?_, ?_, ?_, rfl, rfl, rfl⟩
  · intro h
    simp [parse_sustain_value, h]
  · intro h
    simp [parse_sustain_value, h]
  · intro h1 h2 hp
    simp only [parse_sustain_value, if_neg h1, if_neg h2, hp]
    split_ifs <;> rfl
  · intro h1 h2 hp
    simp only [parse_sustain_value, if_neg h1, if_neg h2, hp]

/-- Witness for C4 at the concrete value fields "100", "30" and "ON". -/
theorem sustain_value_rules_inst :
    parse_sustain_value "100" = .ok 127 ∧
    parse_sustain_value "30" = .ok 30 ∧
    parse_sustain_value "ON" = .ok 127 :=
  ⟨(sustain_value_rules "100" 100).2.2.1 (by decide) (by decide) rfl,
   (sustain_value_rules "30" 30).2.2.1 (by decide) (by decide) rfl,
   (sustain_value_rules "ON" 0).1 rfl⟩

/-- Profile of `apply_globals`: when the sustain option parses, the result
is a store whose `global_defaults` holds, field by field, the option's
value when given and the built-in default when the option is absent
(pan 64, reverb 0, chorus 0, volume 100, modulation 0, expression 127),
together with the parsed sustain value; `channels` is untouched. When the
sustain option does not parse, the whole phase fails with that error. -/
theorem apply_globals_eq (args : Args) (mgr0 : CcStateManager) :
    apply_globals args mgr0 =
      match parse_global_sustain args.sustain with
      | .ok sv =>
          .ok { channels := mgr0.channels,
                global_defaults :=
                  { volume := some (args.volume.getD 100),
                    pan := some (args.pan.getD 64),
                    reverb := some (args.reverb.getD 0),
                    chorus := some (args.chorus.getD 0),
                    modulation := some (args.modulation.getD 0),
                    expression := some (args.expression.getD 127),
                    sustain := some sv } }
      | .error e => .error e := by
  obtain ⟨p, r, c, v, m, e, s, cp⟩ := args
  cases hs : parse_global_sustain s with
  | error e2 =>
      cases p <;> cases r <;> cases c <;> cases v <;> cases m <;> cases e <;>
        simp [apply_globals, hs]
  | ok sv =>
      cases p <;> cases r <;> cases c <;> cases v <;> cases m <;> cases e <;>
        simp [apply_globals, hs, set_global_cc, setField]

/-- C8: for each global scalar option separately — also in mixed
configurations where other options are given — an absent option has its
fixed built-in default written to `global_defaults` (pan=64, reverb=0,
chorus=0, volume=100, modulation=0, expression=127, sustain=0); the
defaults are in place before any channel directive is applied (the store
`apply_globals` hands to the directive loop of `run_setup` still has an
empty `per_channel`); and an explicit channel directive for the same
`(channel, field)` always wins over the default at resolution. -/
theorem global_defaults_spec (args : Args) (mgr : CcStateManager)
    (hok : apply_globals args CcStateManager.new = .ok mgr) :
    (args.pan = none → fieldGet mgr.global_defaults "pan" = some 64) ∧
    (args.reverb = none → fieldGet mgr.global_defaults "reverb" = some 0) ∧
    (args.chorus = none → fieldGet mgr.global_defaults "chorus" = some 0) ∧
    (args.volume = none → fieldGet mgr.global_defaults "volume" = some 100) ∧
    (args.modulation = none →
      fieldGet mgr.global_defaults "modulation" = some 0) ∧
    (args.expression = none →
      fieldGet mgr.global_defaults "expression" = some 127) ∧
    (args.sustain = none → fieldGet mgr.global_defaults "sustain" = some 0) ∧
    mgr.channels = [] ∧
    run_setup args = apply_channel_params mgr args.channel_params ∧
    (∀ m ch t v, t ∈ valid_params →
      get_cc_value (set_channel_cc m ch t v) ch t = some v) := by
  rw [apply_globals_eq] at hok
  cases hs : parse_global_sustain args.sustain with
  | error e =>
      simp only [hs] at hok
      cases hok
  | ok sv =>
      simp only [hs] at hok
      cases hok
      refine ⟨?_, ?_, ?_, ?_, ?_, ?_, ?_, rfl, ?_, ?_⟩
      · intro h; simp [fieldGet, h]
      · intro h; simp [fieldGet, h]
      · intro h; simp [fieldGet, h]
      · intro h; simp [fieldGet, h]
      · intro h; simp [fieldGet, h]
      · intro h; simp [fieldGet, h]
      · intro h
        rw [h] at hs
        simp only [parse_global_sustain, Except.ok.injEq] at hs
        subst hs
        simp [fieldGet]
      · simp only [run_setup, apply_globals_eq, hs]
      · intro m ch t v ht
        rw [get_cc_value_eq, channelField_set_channel, if_pos rfl,
          fieldGet_setField_same _ _ _ ht]
        rfl

/-- Witness for C8 at a concrete mixed configuration: pan is given (10)
and sustain is given ("on"), yet the absent volume and reverb options
still default to 100 and 0. -/
theorem global_defaults_inst :
    fieldGet
      (CcStateManager.mk []
        { volume := some 100, pan := some 10, reverb := some 0,
          chorus := some 0, modulation := some 0,
          expression := some 127, sustain := some 127 }).global_defaults
      "volume" = some 100 ∧
    fieldGet
      (CcStateManager.mk []
        { volume := some 100, pan := some 10, reverb := some 0,
          chorus := some 0, modulation := some 0,
          expression := some 127, sustain := some 127 }).global_defaults
      "reverb" = some 0 :=
  ⟨(global_defaults_spec
      { pan := some 10, reverb := none, chorus := none, volume := none,
        modulation := none, expression := none, sustain := some "on",
        channel_params := [] } _ rfl).2.2.2.1 rfl,
   (global_defaults_spec
      { pan := some 10, reverb := none, chorus := none, volume := none,
        modulation := none, expression := none, sustain := some "on",
        channel_params := [] } _ rfl).2.1 rfl⟩

/-- Any value a successful `parse_value` produces is at most 127 (the
range check for the six plain parameters; 127/0 for the sustain tokens and
the ≥64 coercion, with sub-64 values below the bound already). -/
theorem parse_value_le (t f : String) (v : Nat)
    (h : parse_value t f = .ok v) : v ≤ 127 := by
  unfold parse_value parse_sustain_value at h
  cases hpu : parseU8 f with
  | none =>
      simp only [hpu] at h
      split_ifs at h <;> cases h <;> omega
  | some w =>
      simp only [hpu] at h
      split_ifs at h <;> cases h <;> omega

/-- Inversion of a successful directive parse: the channel is in range,
the parameter name is recognized, and the value is in `[0,127]`. -/
theorem parse_directive_ok (s : String) (ch : Int) (t : String) (v : Nat)
    (h : parse_directive s = .ok (ch, t, v)) :
    0 ≤ ch ∧ ch < 16 ∧ t ∈ valid_params ∧ v ≤ 127 := by
  unfold parse_directive at h
  rcases hsp : split_colon s with _ | ⟨f0, _ | ⟨f1, _ | ⟨f2, _ | ⟨f3, l⟩⟩⟩⟩ <;>
    simp only [hsp] at h
  · cases h
  · cases h
  · cases h
  · cases hpi : parseI32 f0 with
    | none => simp only [hpi] at h; cases h
    | some ch1 =>
        simp only [hpi] at h
        by_cases hrange : 0 ≤ ch1 ∧ ch1 < 16
        · rw [if_pos hrange] at h
          by_cases hmem : toLowerStr f1 ∈ valid_params
          · rw [if_pos hmem] at h
            cases hpv : parse_value (toLowerStr f1) f2 with
            | error e => simp only [hpv] at h; cases h
            | ok w =>
                simp only [hpv] at h
                cases h
                exact ⟨hrange.1, hrange.2, hmem, parse_value_le _ _ _ hpv⟩
          · rw [if_neg hmem] at h; cases h
        · rw [if_neg hrange] at h; cases h
  · cases h

set_option maxHeartbeats 1000000 in
/-- C5: the directive error taxonomy: a split that does not yield exactly 3
fields is `MalformedDirective`; an unparsable or out-of-range channel field
is `InvalidChannel`; an unrecognized parameter name is `UnknownParameter`;
an unparsable or (for non-sustain parameters) out-of-range value field is
`InvalidValue`; a failed directive aborts the whole directive loop with
that error and produces no store; and only a fully valid directive results
in a `set_channel_cc` write. -/
theorem directive_error_taxonomy (mgr : CcStateManager) (s : String) :
    ((split_colon s).length ≠ 3 →
      apply_directive mgr s = .error DirectiveError.MalformedDirective) ∧
    (∀ f0 f1 f2, split_colon s = [f0, f1, f2] →
      (parseI32 f0 = none →
        apply_directive mgr s = .error DirectiveError.InvalidChannel) ∧
      (∀ ch, parseI32 f0 = some ch → ¬(0 ≤ ch ∧ ch < 16) →
        apply_directive mgr s = .error DirectiveError.InvalidChannel) ∧
      (∀ ch, parseI32 f0 = some ch → 0 ≤ ch ∧ ch < 16 →
        toLowerStr f1 ∉ valid_params →
        apply_directive mgr s = .error DirectiveError.UnknownParameter) ∧
      (∀ ch, parseI32 f0 = some ch → 0 ≤ ch ∧ ch < 16 →
        toLowerStr f1 ∈ valid_params → toLowerStr f1 ≠ "sustain" →
        (parseU8 f2 = none ∨ ∃ w, parseU8 f2 = some w ∧ ¬w ≤ 127) →
        apply_directive mgr s = .error DirectiveError.InvalidValue) ∧
      (∀ ch, parseI32 f0 = some ch → 0 ≤ ch ∧ ch < 16 →
        toLowerStr f1 = "sustain" → toLowerStr f2 ≠ "on" →
        toLowerStr f2 ≠ "off" → parseU8 f2 = none →
        apply_directive mgr s = .error DirectiveError.InvalidValue)) ∧
    (∀ mgr2, apply_directive mgr s = .ok mgr2 →
      ∃ ch t v, parse_directive s = .ok (ch, t, v) ∧ 0 ≤ ch ∧ ch < 16 ∧
        t ∈ valid_params ∧ v ≤ 127 ∧ mgr2 = set_channel_cc mgr ch t v) ∧
    (∀ e rest, apply_directive mgr s = .error e →
      apply_channel_params mgr (s :: rest) = .error e) := by
  refine ⟨?_, ?_, ?_, ?_⟩
  · intro hlen
    have hpd : parse_directive s = .error DirectiveError.MalformedDirective := by
      unfold parse_directive
      rcases hsp : split_colon s with _ | ⟨a, _ | ⟨b, _ | ⟨c, _ | ⟨d, l⟩⟩⟩⟩ <;>
        first
          | rfl
          | (exact absurd (by rw [hsp]; rfl) hlen)
    simp [apply_directive, hpd]
  · intro f0 f1 f2 hsp
    refine ⟨?_, ?_, ?_, ?_, ?_⟩
    · intro hp
      simp [apply_directive, parse_directive, hsp, hp]
    · intro ch hp hrange
      simp only [apply_directive, parse_directive, hsp, hp, if_neg hrange]
    · intro ch hp hrange hnp
      simp only [apply_directive, parse_directive, hsp, hp, if_pos hrange,
        if_neg hnp]
    · intro ch hp hrange hmem hns hbad
      have hpv : parse_value (toLowerStr f1) f2 =
          .error DirectiveError.InvalidValue := by
        rcases hbad with hn | ⟨w, hw, hgt⟩
        · simp [parse_value, hns, hn]
        · simp [parse_value, hns, hw, hgt]
      simp only [apply_directive, parse_directive, hsp, hp, if_pos hrange,
        if_pos hmem, hpv]
    · intro ch hp hrange hsus hon hoff hnum
      have hmem : toLowerStr f1 ∈ valid_params := by
        rw [hsus]; decide
      have hpv : parse_value (toLowerStr f1) f2 =
          .error DirectiveError.InvalidValue := by
        rw [parse_value, if_pos hsus]
        simp [parse_sustain_value, hon, hoff, hnum]
      simp only [apply_directive, parse_directive, hsp, hp, if_pos hrange,
        if_pos hmem, hpv]
  · intro mgr2 hok
    unfold apply_directive at hok
    cases hpd : parse_directive s with
    | error e => rw [hpd] at hok; cases hok
    | ok triple =>
        obtain ⟨ch, t, v⟩ := triple
        simp only [hpd] at hok
        cases hok
        obtain ⟨h1, h2, h3, h4⟩ := parse_directive_ok s ch t v hpd
        exact ⟨ch, t, v, rfl, h1, h2, h3, h4, rfl⟩
  · intro e rest herr
    simp [apply_channel_params, herr]

/-- Witness for C5 at the four concrete failing directives of the spec's
testable properties. -/
theorem directive_error_inst :
    apply_directive CcStateManager.new "2:volume" =
      .error DirectiveError.MalformedDirective ∧
    apply_directive CcStateManager.new "16:volume:100" =
      .error DirectiveError.InvalidChannel ∧
    apply_directive CcStateManager.new "2:loudness:50" =
      .error DirectiveError.UnknownParameter ∧
    apply_directive CcStateManager.new "3:pan:200" =
      .error DirectiveError.InvalidValue :=
  ⟨(directive_error_taxonomy CcStateManager.new "2:volume").1 (by decide),
   ((directive_error_taxonomy CcStateManager.new "16:volume:100").2.1
      "16" "volume" "100" rfl).2.1 16 rfl (by decide),
   ((directive_error_taxonomy CcStateManager.new "2:loudness:50").2.1
      "2" "loudness" "50" rfl).2.2.1 2 rfl (by decide) (by decide),
   ((directive_error_taxonomy CcStateManager.new "3:pan:200").2.1
      "3" "pan" "200" rfl).2.2.2.1 3 rfl (by decide) (by decide) (by decide)
      (Or.inr ⟨200, rfl, by decide⟩)⟩
